import Mathlib

/-!
Shallow embedding of the sign-up router state machine from
`src/packages/elements/src/internals/machines/sign-up/router.machine.ts`.

The machine is written with XState v5.  Guards are pure predicates over the
machine context (and, where the source consults it, the resource carried by a
`NEXT` event); actions either assign new context fields or emit side effects
(form-store commands, navigation pushes, raised events).  We embed guards as
Bool-valued functions, context assignments as `Context -> Context` functions,
and effectful actions as functions returning a list of `Effect` values.

Where the source can throw a TypeError (dereferencing a possibly-null value
without optional chaining), the embedded function returns `Option`, with
`none` for the throwing case.
-/

/-- Truthiness of a JavaScript string-or-nullish value: `null`, `undefined`
and the empty string are falsy, every other string is truthy. -/
def strTruthy : Option String → Bool
  | some s => s != ""
  | none => false

/-- JavaScript `a || b` for string-or-nullish values: returns `a` when `a` is
truthy, otherwise `b`. -/
def jsOrStr (a b : Option String) : Option String :=
  if strTruthy a then a else b

/-- Modelled from the spec: query-parameter name for the invitation ticket
token (first of the two accepted names).  The `SEARCH_PARAMS` constants live
in the internal constants module, which is not under `src/`. -/
def SEARCH_PARAMS_ticket : String := "__clerk_ticket"

/-- Modelled from the spec: query-parameter name for the invitation ticket
token (second accepted name). -/
def SEARCH_PARAMS_invitationToken : String := "__clerk_invitation_token"

/-- Modelled from the spec: query-parameter name for the verification status
marker (`verified` or `expired`). -/
def SEARCH_PARAMS_status : String := "__clerk_status"

/-- Modelled from the spec: query-parameter name for the created-session
marker. -/
def SEARCH_PARAMS_createdSession : String := "__clerk_created_session"

/-- Modelled from the spec: query-parameter name for the transfer-to-sign-in
flag. -/
def SEARCH_PARAMS_transfer : String := "__clerk_transfer"

/-- Modelled from the spec: the SSO callback route matched by the
`needsCallback` guard (constant from the constants module, not under
`src/`). -/
def SSO_CALLBACK_PATH_ROUTE : String := "/sso-callback"

/-- Modelled from the spec: default sign-in base path used by the `INIT`
handler when the event carries no (truthy) `signInPath`. -/
def SIGN_IN_DEFAULT_BASE_PATH : String := "/sign-in"

/-- Modelled from the spec: the restricted sign-up mode value compared by the
`isRestricted` guard (`SIGN_UP_MODES.RESTRICTED`). -/
def SIGN_UP_MODES_RESTRICTED : String := "restricted"

/-- Modelled from the spec: the default resend countdown value restored by
`resendableReset` (`RESENDABLE_COUNTDOWN_DEFAULT`, constants module not under
`src/`). -/
def RESENDABLE_COUNTDOWN_DEFAULT : Int := 60

/-- An API error as attached to a verification attempt
(`ClerkAPIError`-shaped value with a `code` and a `longMessage`, both of
which may be absent). -/
structure ClerkAPIError where
  code : Option String
  longMessage : Option String
  deriving DecidableEq

/-- User-facing errors produced by the machine: `ClerkElementsError`
(code plus message, where the message can be `undefined` because the source
passes `longMessage!` through a non-null assertion) and
`ClerkElementsRuntimeError` (message only). -/
inductive ClerkElementsError
  | elementsError (code : String) (message : Option String)
  | runtimeError (message : String)
  deriving DecidableEq

/-- The sign-up resource as consulted by the machine: status, the four field
lists, the created session id, and the resource object properties used for
prefilling (`key in signUp` / `signUp[key]` is modelled by membership /
lookup in `fieldValues`). -/
structure SignUpResource where
  status : Option String
  missingFields : List String
  unverifiedFields : List String
  optionalFields : List String
  requiredFields : List String
  createdSessionId : Option String
  fieldValues : List (String × Option String)
  deriving DecidableEq

/-- Per-attribute verification configuration
(`userSettings.attributes[attr].verifications`). -/
structure AttributeConfig where
  verifications : List String
  deriving DecidableEq

/-- The `userSettings` portion of the environment consulted by guards.
`attributes` is optional because the source reads it through optional
chaining (`attributes?.[attribute]`). -/
structure UserSettings where
  attributes : Option (List (String × AttributeConfig))
  signUpMode : String
  deriving DecidableEq

/-- The `__unstable__environment` object: user settings plus
`authConfig.singleSessionMode` (flattened) and the display-config sign-up
URL. -/
structure Environment where
  userSettings : UserSettings
  singleSessionMode : Bool
  displayConfigSignUpUrl : String
  deriving DecidableEq

/-- The `client.signIn` portion used by `setFormOAuthErrors`:
`signIn.firstFactorVerification.error`. -/
structure SignInClient where
  firstFactorVerificationError : Option ClerkAPIError
  deriving DecidableEq

/-- The clerk client object.  `signUp` is always an object at runtime (an
empty resource before any attempt), so it is embedded as a plain field; its
`status` is `Option` to cover the fresh, null-status resource. -/
structure Client where
  signUp : SignUpResource
  signIn : SignInClient
  lastActiveSessionId : Option String
  deriving DecidableEq

/-- The clerk instance held in context: client, current user (present iff
logged in), optional environment, and the values of
`buildAfterSignUpUrl()` / `buildSignInUrl()`. -/
structure Clerk where
  client : Client
  user : Option String
  environment : Option Environment
  afterSignUpUrl : String
  signInUrl : String
  deriving DecidableEq

/-- The router/navigation adapter.  `router.match(path)` is embedded
extensionally: `matchedRoutes` is the list of route patterns for which the
matcher returns true.  `searchParams` is the current query string as an
association list. -/
structure Router where
  basePath : String
  pathname : String
  searchParams : List (String × String)
  matchedRoutes : List String
  mode : String
  deriving DecidableEq

/-- The `loading` projection stored in context. -/
structure Loading where
  isLoading : Bool
  step : Option String
  strategy : Option String
  action : Option String
  deriving DecidableEq

/-- The machine context (`SignUpRouterContext`).  The attached form store is
represented by the list of field names present in its snapshot
(`formRef.getSnapshot().context.fields`), which is all the machine reads
from it synchronously.  `resendableAfter` is `Option Int`: it is `undefined`
until the first `resendableReset`. -/
structure Context where
  clerk : Clerk
  router : Option Router
  signInPath : String
  loading : Loading
  exampleMode : Bool
  formFields : List String
  ticket : Option String
  resource : Option SignUpResource
  resendable : Bool
  resendableAfter : Option Int
  error : Option ClerkElementsError
  deriving DecidableEq

/-- Commands the machine can send to the form store. -/
inductive FormCommand
  | errorsClear
  | errorsSet (error : ClerkElementsError)
  | fieldDisable (name : String)
  | prefillDefaultValues (defaultValues : List (String × Option String))
  | markAsProgressive (missing optional required : List String)
      (defaultValues : List (String × Option String))
  | unmarkAsProgressive
  deriving DecidableEq

/-- Observable side effects of machine actions: form-store commands, internal
(shallow) and external navigation pushes, session activation, raised `NEXT`
events, the delayed `RESET`, and diagnostic logging. -/
inductive Effect
  | form (cmd : FormCommand)
  | shallowPush (path : String)
  | push (path : String)
  | setActiveSession (session : Option String)
  | raiseNext (resource : Option SignUpResource)
  | delayedReset
  | logMessage (msg : String)
  deriving DecidableEq

/-- Reading a query parameter: `router.searchParams().get(name)`. -/
def getParam (r : Router) (name : String) : Option String :=
  (r.searchParams.find? (fun p => p.1 == name)).map (fun p => p.2)

/-- Guard helper `isCurrentPath(path)`:
`context.router?.match(path) ?? false`. -/
def isCurrentPath (ctx : Context) (path : String) : Bool :=
  match ctx.router with
  | some r => r.matchedRoutes.contains path
  | none => false

/-- Guard helper `needsStatus(status)`: the `NEXT` event resource status (when
present) or the client sign-up resource status equals `status`.  `evtRes` is
the resource carried by the triggering event when that event is a `NEXT`
event, `none` otherwise. -/
def needsStatus (ctx : Context) (evtRes : Option SignUpResource) (status : String) : Bool :=
  (match evtRes with
    | some r => r.status == some status
    | none => false)
  || ctx.clerk.client.signUp.status == some status

/-- Guard `areFieldsMissing`:
`context.clerk?.client?.signUp?.missingFields?.length > 0`. -/
def areFieldsMissing (ctx : Context) : Bool :=
  ctx.clerk.client.signUp.missingFields.length > 0

/-- Guard `areFieldsUnverified`:
`context.clerk?.client?.signUp?.unverifiedFields?.length > 0`. -/
def areFieldsUnverified (ctx : Context) : Bool :=
  ctx.clerk.client.signUp.unverifiedFields.length > 0

/-- Guard `hasTicket`: `Boolean(context.ticket)`.  JavaScript object/string
truthiness: the ticket is stored only when truthy (see `idleInit`), so
presence suffices. -/
def hasTicket (ctx : Context) : Bool :=
  ctx.ticket.isSome

/-- Guard `hasClerkStatus` without params:
`Boolean(router?.searchParams().get(SEARCH_PARAMS.status))`. -/
def hasClerkStatusAny (ctx : Context) : Bool :=
  strTruthy (ctx.router.bind (fun r => getParam r SEARCH_PARAMS_status))

/-- Guard `hasClerkStatus` with params:
`router?.searchParams().get(SEARCH_PARAMS.status) === params.status`. -/
def hasClerkStatusIs (ctx : Context) (status : String) : Bool :=
  ctx.router.bind (fun r => getParam r SEARCH_PARAMS_status) == some status

/-- Guard `hasClerkTransfer`:
`Boolean(router?.searchParams().get(SEARCH_PARAMS.transfer))`. -/
def hasClerkTransfer (ctx : Context) : Bool :=
  strTruthy (ctx.router.bind (fun r => getParam r SEARCH_PARAMS_transfer))

/-- Guard `hasCreatedSession`:
`Boolean(router?.searchParams().get(SEARCH_PARAMS.createdSession))`. -/
def hasCreatedSession (ctx : Context) : Bool :=
  strTruthy (ctx.router.bind (fun r => getParam r SEARCH_PARAMS_createdSession))

/-- Guard `isComplete`: the context resource, the `NEXT` event resource, or
the client sign-up resource has status `complete` together with a (truthy)
created session id. -/
def isComplete (ctx : Context) (evtRes : Option SignUpResource) : Bool :=
  (match ctx.resource with
    | some r => r.status == some "complete" && strTruthy r.createdSessionId
    | none => false)
  || (match evtRes with
    | some r => r.status == some "complete" && strTruthy r.createdSessionId
    | none => false)
  || (ctx.clerk.client.signUp.status == some "complete"
      && strTruthy ctx.clerk.client.signUp.createdSessionId)

/-- Guard `isLoggedIn`: `or(['isComplete', Boolean(context.clerk.user)])`. -/
def isLoggedIn (ctx : Context) (evtRes : Option SignUpResource) : Bool :=
  isComplete ctx evtRes || ctx.clerk.user.isSome

/-- Guard `isSingleSessionMode`:
`Boolean(clerk?.__unstable__environment?.authConfig.singleSessionMode)`. -/
def isSingleSessionMode (ctx : Context) : Bool :=
  match ctx.clerk.environment with
  | some env => env.singleSessionMode
  | none => false

/-- Guard `isExampleMode`: `Boolean(context.exampleMode)`. -/
def isExampleMode (ctx : Context) : Bool :=
  ctx.exampleMode

/-- Guard `isLoggedInAndSingleSession`:
`and(['isLoggedIn', 'isSingleSessionMode', not('isExampleMode')])`. -/
def isLoggedInAndSingleSession (ctx : Context) (evtRes : Option SignUpResource) : Bool :=
  isLoggedIn ctx evtRes && isSingleSessionMode ctx && !isExampleMode ctx

/-- Guard `isStatusMissingRequirements`:
`needsStatus('missing_requirements')`. -/
def isStatusMissingRequirements (ctx : Context) (evtRes : Option SignUpResource) : Bool :=
  needsStatus ctx evtRes "missing_requirements"

/-- Guard `isMissingRequiredFields`:
`and(['isStatusMissingRequirements', 'areFieldsMissing'])`. -/
def isMissingRequiredFields (ctx : Context) (evtRes : Option SignUpResource) : Bool :=
  isStatusMissingRequirements ctx evtRes && areFieldsMissing ctx

/-- Guard `isMissingRequiredUnverifiedFields`:
`and(['isStatusMissingRequirements', 'areFieldsUnverified'])`. -/
def isMissingRequiredUnverifiedFields (ctx : Context) (evtRes : Option SignUpResource) : Bool :=
  isStatusMissingRequirements ctx evtRes && areFieldsUnverified ctx

/-- Guard `isRestricted`:
`clerk?.__unstable__environment?.userSettings.signUp.mode ===
 SIGN_UP_MODES.RESTRICTED`. -/
def isRestricted (ctx : Context) : Bool :=
  match ctx.clerk.environment with
  | some env => env.userSettings.signUpMode == SIGN_UP_MODES_RESTRICTED
  | none => false

/-- Guard `isRestrictedWithoutTicket`:
`and(['isRestricted', not('hasTicket')])`. -/
def isRestrictedWithoutTicket (ctx : Context) : Bool :=
  isRestricted ctx && !hasTicket ctx

/-- Guard `statusNeedsContinue`: `or(['isMissingRequiredFields'])`. -/
def statusNeedsContinue (ctx : Context) (evtRes : Option SignUpResource) : Bool :=
  isMissingRequiredFields ctx evtRes

/-- Guard `statusNeedsVerification`:
`or(['isMissingRequiredUnverifiedFields',
     and(['areFieldsMissing', 'hasClerkStatus'])])`. -/
def statusNeedsVerification (ctx : Context) (evtRes : Option SignUpResource) : Bool :=
  isMissingRequiredUnverifiedFields ctx evtRes
  || (areFieldsMissing ctx && hasClerkStatusAny ctx)

/-- Guard `needsContinue`:
`and(['statusNeedsContinue', isCurrentPath('/continue')])`. -/
def needsContinue (ctx : Context) (evtRes : Option SignUpResource) : Bool :=
  statusNeedsContinue ctx evtRes && isCurrentPath ctx "/continue"

/-- Guard `needsVerification`:
`and(['statusNeedsVerification', isCurrentPath('/verify')])`. -/
def needsVerification (ctx : Context) (evtRes : Option SignUpResource) : Bool :=
  statusNeedsVerification ctx evtRes && isCurrentPath ctx "/verify"

/-- Guard `needsCallback`: `isCurrentPath(SSO_CALLBACK_PATH_ROUTE)`. -/
def needsCallback (ctx : Context) : Bool :=
  isCurrentPath ctx SSO_CALLBACK_PATH_ROUTE

/-- Guard `isResendable`:
`context.resendable || context.resendableAfter === 0`. -/
def isResendable (ctx : Context) : Bool :=
  ctx.resendable || ctx.resendableAfter == some 0

/-- Guard `hasAuthenticatedViaClerkJS`:
`Boolean(clerk.client.signUp.status === null && clerk.client.lastActiveSessionId)`. -/
def hasAuthenticatedViaClerkJS (ctx : Context) : Bool :=
  ctx.clerk.client.signUp.status == none && strTruthy ctx.clerk.client.lastActiveSessionId

/-- Modelled from the spec: `joinURL` from the shared URL helpers (package of
this repository outside `src/`): joins the router base path and a path with
exactly one slash between the two segments. -/
def joinURL (base path : String) : String :=
  let b := if base.data.getLast? = some '/' then String.mk base.data.dropLast else base
  let p := if path.data.head? = some '/' then path else "/" ++ path
  b ++ p

/-- Action `navigateInternal`.  `virtualRouting` is the value of
`shouldUseVirtualRouting()` (helper of this repository outside `src/`,
modelled from the spec as a boolean mode flag).  Returns the navigation
effects: either nothing or exactly one shallow push. -/
def navigateInternal (virtualRouting : Bool) (ctx : Context) (path : String)
    (force : Bool) : List Effect :=
  match ctx.router with
  | none => []
  | some r =>
    if !force && virtualRouting then []
    else if ctx.exampleMode then []
    else
      let resolvedPath := joinURL r.basePath path
      if resolvedPath == r.pathname then []
      else [Effect.shallowPush resolvedPath]

/-- Action `navigateExternal`: `context.router?.push(path)`. -/
def navigateExternal (ctx : Context) (path : String) : List Effect :=
  match ctx.router with
  | some _ => [Effect.push path]
  | none => []

/-- The post-sign-up redirect target:
`router?.searchParams().get('redirect_url') || clerk.buildAfterSignUpUrl()`. -/
def postSignUpRedirectPath (ctx : Context) : String :=
  match jsOrStr (ctx.router.bind (fun r => getParam r "redirect_url")) none with
  | some s => s
  | none => ctx.clerk.afterSignUpUrl

/-- Parameters accepted by the `setActive` action. -/
structure SetActiveParams where
  sessionId : Option String
  useLastActiveSession : Bool
  deriving DecidableEq

/-- Action `setActive`: in example mode it returns without doing anything;
otherwise it resolves the session id as
`params?.sessionId || (params?.useLastActiveSession && lastActiveSessionId)
 || ((event?.resource || signUp).createdSessionId)`
and invokes session activation. -/
def setActiveEffects (ctx : Context) (evtRes : Option SignUpResource)
    (params : Option SetActiveParams) : List Effect :=
  if ctx.exampleMode then []
  else
    let fromParams : Option String := params.bind (fun p => p.sessionId)
    let fromLast : Option String :=
      match params with
      | some p =>
        if p.useLastActiveSession then ctx.clerk.client.lastActiveSessionId else none
      | none => none
    let fromResource : Option String :=
      (match evtRes with
        | some r => r
        | none => ctx.clerk.client.signUp).createdSessionId
    [Effect.setActiveSession (jsOrStr fromParams (jsOrStr fromLast fromResource))]

/-- Action `resendableTick`: `resendable` becomes `resendableAfter === 0`;
`resendableAfter` becomes `resendableAfter > 0 ? resendableAfter - 1 :
resendableAfter` (an undefined countdown stays undefined, comparisons with
undefined are false). -/
def resendableTick (ctx : Context) : Context :=
  { ctx with
    resendable := ctx.resendableAfter == some 0,
    resendableAfter :=
      match ctx.resendableAfter with
      | some n => if n > 0 then some (n - 1) else some n
      | none => none }

/-- Action `resendableReset`: restores `resendable := false` and
`resendableAfter := RESENDABLE_COUNTDOWN_DEFAULT`. -/
def resendableReset (ctx : Context) : Context :=
  { ctx with resendable := false, resendableAfter := some RESENDABLE_COUNTDOWN_DEFAULT }

/-- Action `loadingBegin`: assigns the loading projection for the given step
(with optional strategy and action). -/
def loadingBegin (ctx : Context) (step : String) (strategy action : Option String) : Context :=
  { ctx with loading := ⟨true, some step, strategy, action⟩ }

/-- Action `loadingEnd`: clears the loading projection. -/
def loadingEnd (ctx : Context) : Context :=
  { ctx with loading := ⟨false, none, none, none⟩ }

/-- Assign performed by the global `LOADING` event handler. -/
def assignLoadingEvent (ctx : Context) (isLoading : Bool)
    (step strategy action : Option String) : Context :=
  { ctx with loading := ⟨isLoading, step, strategy, action⟩ }

/-- Action `setError`: stores the given error, or a
`ClerkElementsRuntimeError` with message "Unknown error" when none is
given. -/
def setError (ctx : Context) (e : Option ClerkElementsError) : Context :=
  { ctx with
    error := some (match e with
      | some err => err
      | none => ClerkElementsError.runtimeError "Unknown error") }

/-- Action `resetResource`: `resource := clerk.client.signUp`. -/
def resetResource (ctx : Context) : Context :=
  { ctx with resource := some ctx.clerk.client.signUp }

/-- Action `setResource`: stores the resource returned by a completed actor
(`event.output`). -/
def setResource (ctx : Context) (output : SignUpResource) : Context :=
  { ctx with resource := some output }

/-- Assign performed by the `FORM.ATTACH` handler: rebinds the form store
reference (here: the field-name snapshot). -/
def formAttach (ctx : Context) (fields : List String) : Context :=
  { ctx with formFields := fields }

/-- Assign performed by the `EMAIL_LINK.FAILED` handler and the `EMAIL_LINK.*`
wildcard handler: stores the resource carried by the email-link event. -/
def assignEmailLinkResource (ctx : Context) (r : SignUpResource) : Context :=
  { ctx with resource := some r }

/-- The `INIT` event payload captured by the `Idle` state handler. -/
structure InitEvent where
  clerk : Clerk
  router : Option Router
  signInPath : Option String
  exampleMode : Option Bool
  formFields : List String
  deriving DecidableEq

/-- The assign performed by `Idle` on `INIT`.  XState `assign` merges the
produced keys into the existing context, so unlisted fields (resource,
resendable countdown, error, ...) are carried over from `prev`.  The ticket
is `searchParams?.get(SEARCH_PARAMS.ticket) ||
searchParams?.get(SEARCH_PARAMS.invitationToken) || undefined`. -/
def idleInit (prev : Context) (ev : InitEvent) : Context :=
  { prev with
    clerk := ev.clerk,
    router := ev.router,
    signInPath :=
      match jsOrStr ev.signInPath none with
      | some s => s
      | none => SIGN_IN_DEFAULT_BASE_PATH,
    loading := ⟨false, none, none, none⟩,
    exampleMode :=
      match ev.exampleMode with
      | some b => b
      | none => false,
    formFields := ev.formFields,
    ticket :=
      jsOrStr (ev.router.bind (fun r => getParam r SEARCH_PARAMS_ticket))
        (jsOrStr (ev.router.bind (fun r => getParam r SEARCH_PARAMS_invitationToken)) none) }

/-- The resource consulted by `isFieldUnverified`: the event resource when the
triggering event is a `NEXT` event carrying one (`evtRes`), otherwise the
context resource. -/
def effectiveVerifResource (ctx : Context) (evtRes : Option SignUpResource) :
    Option SignUpResource :=
  match evtRes with
  | some r => some r
  | none => ctx.resource

/-- Guard `isFieldUnverified`: `resource.unverifiedFields.includes(field)` on
the effective resource.  The source dereferences the resource without a null
check, so a missing resource is a TypeError, embedded as `none`. -/
def isFieldUnverified (ctx : Context) (evtRes : Option SignUpResource)
    (field : String) : Option Bool :=
  match effectiveVerifResource ctx evtRes with
  | some r => some (r.unverifiedFields.contains field)
  | none => none

/-- Guard `isStrategyEnabled`:
`Boolean(environment?.userSettings.attributes?.[attribute].verifications
 .includes(strategy))`.  A missing environment or missing attributes map is
falsy via optional chaining; a present attributes map without the attribute
key is a TypeError on `.verifications`, embedded as `none`. -/
def isStrategyEnabled (ctx : Context) (attr strategy : String) : Option Bool :=
  match ctx.clerk.environment with
  | none => some false
  | some env =>
    match env.userSettings.attributes with
    | none => some false
    | some attrs =>
      match attrs.find? (fun p => p.1 == attr) with
      | none => none
      | some p => some (p.2.verifications.contains strategy)

/-- Guard `shouldVerifyPhoneCode` = `shouldVerify('phone_number')`: only the
field-unverified check, no strategy-enabled conjunct. -/
def shouldVerifyPhoneCode (ctx : Context) (evtRes : Option SignUpResource) : Option Bool :=
  isFieldUnverified ctx evtRes "phone_number"

/-- Guard `shouldVerifyEmailLink` = `shouldVerify('email_address',
'email_link')`: field unverified AND (short-circuit) strategy enabled. -/
def shouldVerifyEmailLink (ctx : Context) (evtRes : Option SignUpResource) : Option Bool := do
  let u ← isFieldUnverified ctx evtRes "email_address"
  if u then isStrategyEnabled ctx "email_address" "email_link" else pure false

/-- Guard `shouldVerifyEmailCode` = `shouldVerify('email_address',
'email_code')`: field unverified AND (short-circuit) strategy enabled. -/
def shouldVerifyEmailCode (ctx : Context) (evtRes : Option SignUpResource) : Option Bool := do
  let u ← isFieldUnverified ctx evtRes "email_address"
  if u then isStrategyEnabled ctx "email_address" "email_code" else pure false

/-- The three verification sub-flows reachable from `Verification.Init`. -/
inductive VerifTarget
  | PhoneCode
  | EmailLink
  | EmailCode
  deriving DecidableEq

/-- The ordered guard list of `Verification.Init`, first match wins; the inner
`none` means no guard matched and the machine stays in `Init`.  The outer
`Option` propagates a TypeError thrown by a guard. -/
def verificationInitDispatch (ctx : Context) (evtRes : Option SignUpResource) :
    Option (Option VerifTarget) := do
  if (← shouldVerifyPhoneCode ctx evtRes) then pure (some VerifTarget.PhoneCode)
  else if (← shouldVerifyEmailLink ctx evtRes) then pure (some VerifTarget.EmailLink)
  else if (← shouldVerifyEmailCode ctx evtRes) then pure (some VerifTarget.EmailCode)
  else pure none

/-- Targets of the one-shot `Init` decision state of the Router Core.  `Stay`
is the first, targetless branch (external navigation only, no step is
entered). -/
inductive InitTarget
  | Stay
  | Callback
  | Start
  | Verification
  | Continue
  | Restricted
  deriving DecidableEq

/-- Result of evaluating the `Init` `always` guard chain: the chosen target
plus the transition actions. -/
structure InitDecision where
  target : InitTarget
  effects : List Effect
  deriving DecidableEq

/-- The ordered `always` guard list of the `Init` state, first satisfied
branch wins.  The `Init` chain is evaluated on entry from `Idle` (the `INIT`
event carries no resource), so event-sensitive guards receive `none`. -/
def initDecision (virtualRouting : Bool) (ctx : Context) : InitDecision :=
  if isLoggedInAndSingleSession ctx none then
    ⟨InitTarget.Stay,
      Effect.logMessage "Already logged in" ::
        navigateExternal ctx (postSignUpRedirectPath ctx)⟩
  else if needsCallback ctx then
    ⟨InitTarget.Callback, []⟩
  else if hasTicket ctx then
    ⟨InitTarget.Start, navigateInternal virtualRouting ctx "/" true⟩
  else if needsVerification ctx none then
    ⟨InitTarget.Verification, navigateInternal virtualRouting ctx "/verify" true⟩
  else if needsContinue ctx none || hasClerkTransfer ctx then
    ⟨InitTarget.Continue, navigateInternal virtualRouting ctx "/continue" true⟩
  else if isRestrictedWithoutTicket ctx then
    ⟨InitTarget.Restricted, []⟩
  else
    ⟨InitTarget.Start, navigateInternal virtualRouting ctx "/" true⟩

/-- One step of the camel-casing rewrite: a `_` or `-` immediately followed
by a lowercase letter is collapsed to that letter uppercased.  Because the
right-hand member of a collapsed pair is always a lowercase letter and the
left-hand member never is, matches are pairwise disjoint and the rewrite can
be computed by a right fold. -/
def snakeToCamelStep (c : Char) (acc : List Char) : List Char :=
  match acc with
  | [] => [c]
  | d :: rest =>
    if (c == '_' || c == '-') && d.isLower then Char.toUpper d :: rest
    else c :: acc

/-- The camel-casing rewrite on a character list. -/
def snakeToCamelAux (l : List Char) : List Char :=
  l.foldr snakeToCamelStep []

/-- Modelled from the spec: `snakeToCamel` from the shared underscore helpers
(package of this repository outside `src/`): camel-cases a snake-case field
name by collapsing each separator-plus-lowercase-letter pair to the
uppercased letter. -/
def snakeToCamel (s : String) : String :=
  ⟨snakeToCamelAux s.data⟩

/-- JavaScript `Map.set` on an association list: an existing key keeps its
position and gets the new value, a new key is appended. -/
def mapSet (m : List (String × Option String)) (k : String) (v : Option String) :
    List (String × Option String) :=
  if (m.find? (fun p => p.1 == k)).isSome then
    m.map (fun p => if p.1 == k then (k, v) else p)
  else
    m ++ [(k, v)]

/-- The `progressiveFieldValues` map built by `markFormAsProgressive`: for
each key of `required.concat(optional)` (camel-cased) that is a property of
the sign-up resource, the property value. -/
def progressiveFieldValues (signUp : SignUpResource) : List (String × Option String) :=
  let required := signUp.requiredFields.map snakeToCamel
  let optional := signUp.optionalFields.map snakeToCamel
  (required ++ optional).foldl
    (fun m key =>
      match signUp.fieldValues.find? (fun p => p.1 == key) with
      | some p => mapSet m key p.2
      | none => m)
    []

/-- The `MARK_AS_PROGRESSIVE` event constructed by `markFormAsProgressive`:
camel-cased missing/optional/required field lists plus the progressive
default values. -/
def markAsProgressiveCommand (signUp : SignUpResource) : FormCommand :=
  FormCommand.markAsProgressive
    (signUp.missingFields.map snakeToCamel)
    (signUp.optionalFields.map snakeToCamel)
    (signUp.requiredFields.map snakeToCamel)
    (progressiveFieldValues signUp)

/-- Effects delivered by the `markFormAsProgressive` action.  The source
builds the `MARK_AS_PROGRESSIVE` event and passes it to the XState `sendTo`
action creator inside a plain action function; `sendTo` only constructs a
declarative action object, and the returned object is discarded, so no event
is delivered to the form store. -/
def markFormAsProgressiveEffects (_ctx : Context) : List Effect :=
  []

/-- Effects delivered by the `unmarkFormAsProgressive` action, which calls
`context.formRef.send({type: UNMARK_AS_PROGRESSIVE})` directly and therefore
does deliver the command. -/
def unmarkFormAsProgressiveEffects (_ctx : Context) : List Effect :=
  [Effect.form FormCommand.unmarkAsProgressive]

/-- Entry actions of the `Continue` step (`entry: markFormAsProgressive`). -/
def continueEntryEffects (ctx : Context) : List Effect :=
  markFormAsProgressiveEffects ctx

/-- Exit actions of the `Continue` step (`exit: unmarkFormAsProgressive`). -/
def continueExitEffects (ctx : Context) : List Effect :=
  unmarkFormAsProgressiveEffects ctx

/-- The fields checked by `setFormDisabledTicketFields`
(`DISABLEABLE_FIELDS`). -/
def DISABLEABLE_FIELDS : List String := ["emailAddress", "phoneNumber"]

/-- The `FIELD.DISABLE` commands constructed by the loop body of
`setFormDisabledTicketFields`: nothing without a ticket, otherwise one
command per disableable field present in the form snapshot. -/
def disabledTicketFieldCommands (ctx : Context) : List FormCommand :=
  match ctx.ticket with
  | none => []
  | some _ =>
    (DISABLEABLE_FIELDS.filter (fun n => ctx.formFields.contains n)).map
      FormCommand.fieldDisable

/-- Effects delivered by the `setFormDisabledTicketFields` action.  As with
`markFormAsProgressive`, each constructed `FIELD.DISABLE` event is passed to
the XState `sendTo` action creator inside a plain action function; the
returned action objects are discarded, so no command reaches the form
store. -/
def setFormDisabledTicketFieldsEffects (_ctx : Context) : List Effect :=
  []

/-- Modelled from the spec: `ERROR_CODES` values for the known third-party
failure codes (constants module not under `src/`); the claims only depend on
these being six pairwise-distinct known codes. -/
def KNOWN_OAUTH_ERROR_CODES : List String :=
  ["not_allowed_to_sign_up", "oauth_access_denied", "not_allowed_access",
   "saml_user_attribute_missing", "oauth_email_domain_reserved_by_saml",
   "user_locked"]

/-- The generic fallback error produced for unrecognized codes. -/
def unableToCompleteError : ClerkElementsError :=
  ClerkElementsError.elementsError "unable_to_complete"
    (some "Unable to complete action at this time. If the problem persists please contact support.")

/-- Action `setFormOAuthErrors`: reads
`clerk.client.signIn.firstFactorVerification.error`; sends nothing when it is
absent; for a known code sends a `ClerkElementsError` with that code and the
long message; otherwise sends the generic unable-to-complete error. -/
def setFormOAuthErrors (ctx : Context) : List Effect :=
  match ctx.clerk.client.signIn.firstFactorVerificationError with
  | none => []
  | some errorOrig =>
    let err :=
      match errorOrig.code with
      | some c =>
        if KNOWN_OAUTH_ERROR_CODES.contains c then
          ClerkElementsError.elementsError c errorOrig.longMessage
        else unableToCompleteError
      | none => unableToCompleteError
    [Effect.form (FormCommand.errorsSet err)]

/-- Sub-states of the `Start` step. -/
inductive StartState
  | Init
  | Pending
  | Attempting
  | AttemptingWeb3
  deriving DecidableEq

/-- Sub-states of a code-strategy verification sub-flow (email code / phone
code). -/
inductive CodeVerifState
  | Preparing
  | Pending
  | Attempting
  deriving DecidableEq

/-- Sub-states of the email-link verification sub-flow. -/
inductive EmailLinkState
  | Preparing
  | Pending
  | Attempting
  deriving DecidableEq

/-- Result of one transition: the updated context, the delivered effects, and
the transition target (`none` for a targetless transition, which leaves the
current state unchanged). -/
structure StepResult (σ : Type) where
  ctx : Context
  effects : List Effect
  target : Option σ
  deriving DecidableEq

/-- `Start.Attempting` `onDone`: actions `setResource`,
`setFormDisabledTicketFields`, `goToNextStep`; no target. -/
def startAttemptOnDone (ctx : Context) (output : SignUpResource) : StepResult StartState :=
  ⟨setResource ctx output,
    setFormDisabledTicketFieldsEffects ctx ++ [Effect.raiseNext (some output)],
    none⟩

/-- `Start.Attempting` `onError`: actions `setFormDisabledTicketFields`,
`setFormErrors`; target `Pending`.  `setFormErrors` is declared as a
top-level `sendTo` action, so it does deliver the `ERRORS.SET` command. -/
def startAttemptOnError (ctx : Context) (error : ClerkElementsError) : StepResult StartState :=
  ⟨ctx,
    setFormDisabledTicketFieldsEffects ctx ++ [Effect.form (FormCommand.errorsSet error)],
    some StartState.Pending⟩

/-- `EmailCode.Preparing` `onDone` guard list: first branch guarded by
`shouldVerifyEmailCode` (evaluated on the pre-update context, since the done
event is not a `NEXT` event) targets `Pending` with `setResource`; the
unguarded second branch runs `setResource` and `goToNextStep` with no
target.  `none` propagates a guard TypeError. -/
def emailCodePrepareOnDone (ctx : Context) (output : SignUpResource) :
    Option (StepResult CodeVerifState) := do
  let g ← shouldVerifyEmailCode ctx none
  if g then
    pure ⟨setResource ctx output, [], some CodeVerifState.Pending⟩
  else
    pure ⟨setResource ctx output, [Effect.raiseNext (some output)], none⟩

/-- `PhoneCode.Preparing` `onDone` guard list, same shape with
`shouldVerifyPhoneCode`. -/
def phoneCodePrepareOnDone (ctx : Context) (output : SignUpResource) :
    Option (StepResult CodeVerifState) := do
  let g ← shouldVerifyPhoneCode ctx none
  if g then
    pure ⟨setResource ctx output, [], some CodeVerifState.Pending⟩
  else
    pure ⟨setResource ctx output, [Effect.raiseNext (some output)], none⟩

/-- `EmailLink.Preparing` `onDone`: unconditionally `setResource` and target
`Attempting` (no guard, no `Pending`, no raised `NEXT`). -/
def emailLinkPrepareOnDone (ctx : Context) (output : SignUpResource) :
    StepResult EmailLinkState :=
  ⟨setResource ctx output, [], some EmailLinkState.Attempting⟩

/-- The common `onError` clause of all three `Preparing` states: action
`setFormErrors`, target `Pending` (the context is not modified). -/
def verificationPrepareOnError (ctx : Context) (error : ClerkElementsError) :
    Context × List Effect :=
  (ctx, [Effect.form (FormCommand.errorsSet error)])

/-- `Continue.Attempting` `onDone`: actions `setResource`, `goToNextStep`; no
target (and no ticket-field handling, unlike `Start.Attempting`). -/
def continueAttemptOnDone (ctx : Context) (output : SignUpResource) : StepResult Unit :=
  ⟨setResource ctx output, [Effect.raiseNext (some output)], none⟩

/-- A fresh sign-up resource: null status, empty field lists, no session. -/
def emptySignUp : SignUpResource :=
  ⟨none, [], [], [], [], none, []⟩

/-- A neutral clerk instance: fresh resource, no sign-in error, no user, no
environment. -/
def baseClerk : Clerk :=
  ⟨⟨emptySignUp, ⟨none⟩, none⟩, none, none, "/after-sign-up", "/sign-in-url"⟩

/-- A router sitting at the root path with empty base path and no query
parameters; only the root route matches. -/
def baseRouter : Router :=
  ⟨"", "/", [], ["/"], "path"⟩

/-- A neutral context used as the base of the concrete scenarios: fresh
clerk, root router, no ticket, no resource, countdown not started. -/
def baseCtx : Context :=
  ⟨baseClerk, some baseRouter, SIGN_IN_DEFAULT_BASE_PATH, ⟨false, none, none, none⟩,
    false, [], none, none, false, none, none⟩

/-- Context with a ticket and a form holding an `emailAddress` (and a `code`)
field: the input on which `setFormDisabledTicketFields` constructs, and then
discards, a `FIELD.DISABLE` command. -/
def ctxC4 : Context :=
  { baseCtx with ticket := some "ticket-token", formFields := ["emailAddress", "code"] }

/-- Claim C4: in `Start.Attempting`, success stores the returned resource and
raises `NEXT`, failure surfaces the error to the form and returns to
`Pending` with the context resource unchanged — but the ticket-field
disabling claimed for both paths never reaches the form store: the
constructed `FIELD.DISABLE` commands are passed to the XState `sendTo` action
creator inside a plain action function, and the resulting action objects are
discarded. -/
theorem c4_start_attempting_evaluation :
    (∀ (ctx : Context) (out : SignUpResource),
      startAttemptOnDone ctx out =
        ⟨setResource ctx out, [Effect.raiseNext (some out)], none⟩)
    ∧ (∀ (ctx : Context) (err : ClerkElementsError),
      startAttemptOnError ctx err =
        ⟨ctx, [Effect.form (FormCommand.errorsSet err)], some StartState.Pending⟩)
    ∧ (∀ (ctx : Context) (err : ClerkElementsError),
      (startAttemptOnError ctx err).ctx.resource = ctx.resource)
    ∧ disabledTicketFieldCommands ctxC4 = [FormCommand.fieldDisable "emailAddress"]
    ∧ setFormDisabledTicketFieldsEffects ctxC4 = [] :=
  ⟨fun _ _ => rfl, fun _ _ => rfl, fun _ _ => rfl, rfl, rfl⟩

/-- Claim C5: `resendableTick` decrements a positive countdown by exactly 1
and leaves a zero countdown at 0; nonnegativity of the countdown is preserved
by every action that writes it; the `resendable` flag becomes true exactly
when a tick runs with the countdown at zero, stays true under further ticks
at zero, and `resendableReset` restores `false` and the default countdown. -/
theorem c5_resendable_countdown :
    (∀ (ctx : Context) (n : Int), ctx.resendableAfter = some n → 0 < n →
      (resendableTick ctx).resendableAfter = some (n - 1)
        ∧ (resendableTick ctx).resendable = false)
    ∧ (∀ ctx : Context, ctx.resendableAfter = some 0 →
      (resendableTick ctx).resendableAfter = some 0
        ∧ (resendableTick ctx).resendable = true)
    ∧ (∀ (ctx : Context) (n : Int), ctx.resendableAfter = some n → 0 ≤ n →
      ∀ m : Int, (resendableTick ctx).resendableAfter = some m → 0 ≤ m)
    ∧ (∀ (ctx : Context) (m : Int),
      (resendableReset ctx).resendableAfter = some m → 0 ≤ m)
    ∧ (∀ ctx : Context,
      (resendableReset ctx).resendable = false
        ∧ (resendableReset ctx).resendableAfter = some RESENDABLE_COUNTDOWN_DEFAULT)
    ∧ (∀ ctx : Context, ctx.resendableAfter = none →
      (resendableTick ctx).resendableAfter = none
        ∧ (resendableTick ctx).resendable = false) := by
  refine ⟨?_, ?_, ?_, ?_, ?_, ?_⟩
  · intro ctx n h hn
    constructor
    · simp [resendableTick, h]
      omega
    · simp [resendableTick, h]
      omega
  · intro ctx h
    constructor
    · simp [resendableTick, h]
    · simp [resendableTick, h]
  · intro ctx n h hn m hm
    have he : (resendableTick ctx).resendableAfter = (if n > 0 then some (n - 1) else some n) := by
      simp [resendableTick, h]
    rw [he] at hm
    by_cases hpos : n > 0
    · rw [if_pos hpos] at hm
      injection hm with hm
      omega
    · rw [if_neg hpos] at hm
      injection hm with hm
      omega
  · intro ctx m hm
    have he : (resendableReset ctx).resendableAfter = some RESENDABLE_COUNTDOWN_DEFAULT := rfl
    rw [he] at hm
    injection hm with hm
    rw [← hm]
    decide
  · intro ctx
    exact ⟨rfl, rfl⟩
  · intro ctx h
    exact ⟨by simp [resendableTick, h], by simp [resendableTick, h]⟩

/-- Context whose countdown is running at 3: used to instantiate the
countdown claim. -/
def ctxC5 : Context :=
  { baseCtx with resendableAfter := some 3 }

/-- Witness for C5 at a concrete running countdown. -/
theorem c5_resendable_countdown_witness :
    (resendableTick ctxC5).resendableAfter = some 2
      ∧ (resendableTick ctxC5).resendable = false :=
  c5_resendable_countdown.1 ctxC5 3 rfl (by decide)

/-- Claim C8: `setFormOAuthErrors` sends nothing when the client carries no
third-party verification error, sends the exact code with its long message
for the six known codes, and sends the generic unable-to-complete error for
every other non-null code. -/
theorem c8_oauth_error_mapping (ctx : Context) :
    (ctx.clerk.client.signIn.firstFactorVerificationError = none →
      setFormOAuthErrors ctx = [])
    ∧ (∀ (e : ClerkAPIError) (c : String),
      ctx.clerk.client.signIn.firstFactorVerificationError = some e →
      e.code = some c → KNOWN_OAUTH_ERROR_CODES.contains c = true →
      setFormOAuthErrors ctx =
        [Effect.form (FormCommand.errorsSet
          (ClerkElementsError.elementsError c e.longMessage))])
    ∧ (∀ (e : ClerkAPIError) (c : String),
      ctx.clerk.client.signIn.firstFactorVerificationError = some e →
      e.code = some c → KNOWN_OAUTH_ERROR_CODES.contains c = false →
      setFormOAuthErrors ctx =
        [Effect.form (FormCommand.errorsSet unableToCompleteError)]) := by
  refine ⟨?_, ?_, ?_⟩
  · intro h
    simp [setFormOAuthErrors, h]
  · intro e c he hc hk
    have hm : c ∈ KNOWN_OAUTH_ERROR_CODES := by simpa using hk
    simp [setFormOAuthErrors, he, hc, hm]
  · intro e c he hc hk
    have hm : c ∉ KNOWN_OAUTH_ERROR_CODES := by simpa using hk
    simp [setFormOAuthErrors, he, hc, hm]

/-- Context whose sign-in client carries a locked-user third-party error. -/
def ctxC8 : Context :=
  { baseCtx with
    clerk := { baseClerk with
      client := { baseClerk.client with
        signIn := ⟨some ⟨some "user_locked", some "Your account is locked."⟩⟩ } } }

/-- Witness for C8 at a concrete known-code error. -/
theorem c8_oauth_error_mapping_witness :
    setFormOAuthErrors ctxC8 =
      [Effect.form (FormCommand.errorsSet
        (ClerkElementsError.elementsError "user_locked" (some "Your account is locked.")))] :=
  (c8_oauth_error_mapping ctxC8).2.1 ⟨some "user_locked", some "Your account is locked."⟩
    "user_locked" rfl rfl rfl

/-- A sign-up resource mid progressive profiling: one missing field, known
values for some required/optional properties. -/
def signUpC9 : SignUpResource :=
  { emptySignUp with
    status := some "missing_requirements",
    missingFields := ["last_name"],
    requiredFields := ["first_name", "last_name"],
    optionalFields := ["phone_number"],
    fieldValues := [("firstName", some "Ada"), ("phoneNumber", none)] }

/-- Context entering the `Continue` step with `signUpC9` on the client. -/
def ctxC9 : Context :=
  { baseCtx with
    clerk := { baseClerk with
      client := { baseClerk.client with signUp := signUpC9 } } }

/-- Claim C9: the `Continue` entry action computes the full
`MARK_AS_PROGRESSIVE` payload (camel-cased missing/optional/required lists
and known default values) but delivers nothing to the form store, because the
constructed event is handed to the XState `sendTo` action creator inside a
plain action function and the returned action object is discarded; the exit
action does deliver `UNMARK_AS_PROGRESSIVE` via `formRef.send`. -/
theorem c9_mark_progressive_evaluation :
    (∀ ctx : Context, continueEntryEffects ctx = [])
    ∧ markAsProgressiveCommand ctxC9.clerk.client.signUp =
        FormCommand.markAsProgressive ["lastName"] ["phoneNumber"]
          ["firstName", "lastName"]
          [("firstName", some "Ada"), ("phoneNumber", none)]
    ∧ markAsProgressiveCommand ctxC9.clerk.client.signUp ≠ FormCommand.unmarkAsProgressive
    ∧ continueExitEffects ctxC9 = [Effect.form FormCommand.unmarkAsProgressive] := by
  refine ⟨fun _ => rfl, ?_, ?_, rfl⟩
  · rfl
  · decide

/-- An `INIT` event whose URL carries the first ticket parameter with an
empty value and the second with a non-empty one. -/
def evC6 : InitEvent :=
  ⟨baseClerk,
    some { baseRouter with
      searchParams := [(SEARCH_PARAMS_ticket, ""), (SEARCH_PARAMS_invitationToken, "abc")] },
    none, none, []⟩

/-- Counterexample to claim C6 as stated: the first ticket parameter name is
present (with the empty value), yet the captured ticket is the second
parameter value, because the source chains the two reads with JavaScript
`||`, for which the empty string is falsy — so the first name with a
non-empty value wins, not the first present name. -/
theorem c6_counterexample :
    evC6.router.bind (fun r => getParam r SEARCH_PARAMS_ticket) = some ""
      ∧ (idleInit baseCtx evC6).ticket = some "abc"
      ∧ (some "abc" : Option String) ≠ some "" :=
  ⟨rfl, rfl, by decide⟩

/-- Claim C6 (amended): `ticket` is assigned only by the `INIT` handler of
the `Idle` state, which takes the value of the first of the two alternate
query-parameter names whose value is non-empty (a present-but-empty value is
falsy under the JavaScript `||` chain and is skipped), falling back to
`undefined`; every other context-writing action of the machine leaves
`ticket` unchanged, so it is set at most once per machine lifetime (between
an `INIT` and the next `RESET`). -/
theorem c6_ticket_assignment_amended :
    (∀ (prev : Context) (ev : InitEvent) (s : String),
      ev.router.bind (fun r => getParam r SEARCH_PARAMS_ticket) = some s → s ≠ "" →
      (idleInit prev ev).ticket = some s)
    ∧ (∀ (prev : Context) (ev : InitEvent) (s : String),
      strTruthy (ev.router.bind (fun r => getParam r SEARCH_PARAMS_ticket)) = false →
      ev.router.bind (fun r => getParam r SEARCH_PARAMS_invitationToken) = some s →
      s ≠ "" →
      (idleInit prev ev).ticket = some s)
    ∧ (∀ (prev : Context) (ev : InitEvent),
      strTruthy (ev.router.bind (fun r => getParam r SEARCH_PARAMS_ticket)) = false →
      strTruthy (ev.router.bind (fun r => getParam r SEARCH_PARAMS_invitationToken)) = false →
      (idleInit prev ev).ticket = none)
    ∧ (∀ ctx : Context, (resendableTick ctx).ticket = ctx.ticket)
    ∧ (∀ ctx : Context, (resendableReset ctx).ticket = ctx.ticket)
    ∧ (∀ (ctx : Context) (step : String) (strategy action : Option String),
      (loadingBegin ctx step strategy action).ticket = ctx.ticket)
    ∧ (∀ ctx : Context, (loadingEnd ctx).ticket = ctx.ticket)
    ∧ (∀ (ctx : Context) (b : Bool) (step strategy action : Option String),
      (assignLoadingEvent ctx b step strategy action).ticket = ctx.ticket)
    ∧ (∀ (ctx : Context) (e : Option ClerkElementsError),
      (setError ctx e).ticket = ctx.ticket)
    ∧ (∀ ctx : Context, (resetResource ctx).ticket = ctx.ticket)
    ∧ (∀ (ctx : Context) (out : SignUpResource),
      (setResource ctx out).ticket = ctx.ticket)
    ∧ (∀ (ctx : Context) (fields : List String),
      (formAttach ctx fields).ticket = ctx.ticket)
    ∧ (∀ (ctx : Context) (r : SignUpResource),
      (assignEmailLinkResource ctx r).ticket = ctx.ticket) := by
  refine ⟨?_, ?_, ?_, fun _ => rfl, fun _ => rfl, fun _ _ _ _ => rfl, fun _ => rfl,
    fun _ _ _ _ _ => rfl, fun _ _ => rfl, fun _ => rfl, fun _ _ => rfl,
    fun _ _ => rfl, fun _ _ => rfl⟩
  · intro prev ev s h hs
    have ht : strTruthy (some s) = true := by simp [strTruthy, hs]
    simp [idleInit, jsOrStr, h, ht]
  · intro prev ev s h hi hs
    have ht : strTruthy (some s) = true := by simp [strTruthy, hs]
    simp [idleInit, jsOrStr, h, hi, ht]
  · intro prev ev h hi
    simp [idleInit, jsOrStr, h, hi]

/-- An `INIT` event carrying a plain ticket under the first parameter name. -/
def evC6w : InitEvent :=
  ⟨baseClerk,
    some { baseRouter with searchParams := [(SEARCH_PARAMS_ticket, "tok1")] },
    none, none, []⟩

/-- Witness for C6 at a concrete event with a non-empty first parameter. -/
theorem c6_ticket_assignment_amended_witness :
    (idleInit baseCtx evC6w).ticket = some "tok1" :=
  c6_ticket_assignment_amended.1 baseCtx evC6w "tok1" rfl (by decide)

/-- Claim C7: with `exampleMode` set, `navigateInternal` pushes nothing,
`setActive` performs no session activation, and the only transition invoking
the external-navigation action (the first `Init` branch) is unreachable
because its guard conjoins `not(isExampleMode)` — so the whole `Init`
decision produces no effects at all in example mode. -/
theorem c7_example_mode_no_side_effects (vr : Bool) (ctx : Context)
    (h : ctx.exampleMode = true) :
    (∀ (path : String) (force : Bool), navigateInternal vr ctx path force = [])
    ∧ (∀ (evtRes : Option SignUpResource) (params : Option SetActiveParams),
      setActiveEffects ctx evtRes params = [])
    ∧ isLoggedInAndSingleSession ctx none = false
    ∧ (initDecision vr ctx).effects = [] := by
  have hnav : ∀ (path : String) (force : Bool), navigateInternal vr ctx path force = [] := by
    intro path force
    unfold navigateInternal
    cases hr : ctx.router with
    | none => rfl
    | some r => simp [h]
  have hguard : isLoggedInAndSingleSession ctx none = false := by
    simp [isLoggedInAndSingleSession, isExampleMode, h]
  refine ⟨hnav, ?_, hguard, ?_⟩
  · intro evtRes params
    simp [setActiveEffects, h]
  · unfold initDecision
    rw [hguard]
    simp only [Bool.false_eq_true, if_false]
    split
    · rfl
    · split
      · exact hnav "/" true
      · split
        · exact hnav "/verify" true
        · split
          · exact hnav "/continue" true
          · split
            · rfl
            · exact hnav "/" true

/-- A context in example mode. -/
def ctxC7 : Context :=
  { baseCtx with exampleMode := true }

/-- Witness for C7 at a concrete example-mode context. -/
theorem c7_example_mode_no_side_effects_witness :
    navigateInternal false ctxC7 "/verify" true = []
      ∧ setActiveEffects ctxC7 none none = []
      ∧ (initDecision false ctxC7).effects = [] :=
  ⟨(c7_example_mode_no_side_effects false ctxC7 rfl).1 "/verify" true,
    (c7_example_mode_no_side_effects false ctxC7 rfl).2.1 none none,
    (c7_example_mode_no_side_effects false ctxC7 rfl).2.2.2⟩

/-- Claim C10: `navigateInternal` performs no push when the router is
missing, when virtual routing is active and the navigation is not forced,
when example mode is set, or when the resolved path already equals the
current pathname; in every other case it performs exactly one shallow push to
the resolved path. -/
theorem c10_navigate_internal (vr : Bool) (ctx : Context) (path : String) (force : Bool) :
    (ctx.router = none → navigateInternal vr ctx path force = [])
    ∧ (∀ r : Router, ctx.router = some r →
      ((force = false → vr = true → navigateInternal vr ctx path force = [])
      ∧ (ctx.exampleMode = true → navigateInternal vr ctx path force = [])
      ∧ (joinURL r.basePath path = r.pathname → navigateInternal vr ctx path force = [])
      ∧ ((force = true ∨ vr = false) → ctx.exampleMode = false →
        joinURL r.basePath path ≠ r.pathname →
        navigateInternal vr ctx path force =
          [Effect.shallowPush (joinURL r.basePath path)]))) := by
  constructor
  · intro h
    simp [navigateInternal, h]
  · intro r hr
    refine ⟨?_, ?_, ?_, ?_⟩
    · intro hf hv
      simp [navigateInternal, hr, hf, hv]
    · intro he
      simp [navigateInternal, hr, he]
    · intro hp
      simp [navigateInternal, hr, hp]
    · intro hfv he hp
      have hc : (!force && vr) = false := by
        rcases hfv with hf | hv
        · simp [hf]
        · simp [hv]
      simp [navigateInternal, hr, hc, he, hp]

/-- A router whose base path differs from the target path. -/
def routerC10 : Router :=
  ⟨"/sign-up", "/sign-up", [], ["/"], "path"⟩

/-- Context attached to `routerC10`. -/
def ctxC10 : Context :=
  { baseCtx with router := some routerC10 }

/-- Witness for C10 at a concrete forced navigation that does push. -/
theorem c10_navigate_internal_witness :
    navigateInternal false ctxC10 "/verify" true =
      [Effect.shallowPush (joinURL routerC10.basePath "/verify")] :=
  ((c10_navigate_internal false ctxC10 "/verify" true).2 routerC10 rfl).2.2.2
    (Or.inl rfl) rfl (by decide)

/-- A sign-up resource with `missing_requirements` status and a missing
required field (no unverified fields). -/
def signUpC1 : SignUpResource :=
  { emptySignUp with
    status := some "missing_requirements",
    missingFields := ["last_name"] }

/-- Context at the root path (not `/continue`) whose client resource needs
continuation, with no ticket, no transfer flag, no restriction, and nobody
logged in. -/
def ctxC1 : Context :=
  { baseCtx with
    clerk := { baseClerk with
      client := { baseClerk.client with signUp := signUpC1 } } }

/-- Counterexample to claim C1 as stated: `ctxC1` needs continuation
(missing required fields) and fails every earlier guard, so by the claim
branch 5 should fire and the machine should enter `Continue`; the code
additionally requires the current path to match `/continue` inside the
`needsContinue` guard, so the chain falls through to the default and enters
`Start` instead. -/
theorem c1_counterexample :
    statusNeedsContinue ctxC1 none = true
      ∧ isLoggedInAndSingleSession ctxC1 none = false
      ∧ needsCallback ctxC1 = false
      ∧ hasTicket ctxC1 = false
      ∧ needsVerification ctxC1 none = false
      ∧ hasClerkTransfer ctxC1 = false
      ∧ (initDecision false ctxC1).target = InitTarget.Start
      ∧ InitTarget.Start ≠ InitTarget.Continue :=
  ⟨rfl, rfl, rfl, rfl, rfl, rfl, rfl, by decide⟩

/-- Claim C1 (amended): the `Init` target is decided by the ordered guard
list with the first satisfied guard winning: (1) logged in AND single-session
AND not example mode, external navigation only, no step; (2) SSO callback
route, `Callback`; (3) ticket present, `Start` with forced internal
navigation to the root; (4) verification needed and path matches `/verify`,
`Verification`; (5) continuation needed AND the current path matches
`/continue`, or the transfer flag is present, `Continue`; (6) restricted and
no ticket, `Restricted`; (7) default, `Start`.  With no ticket, no query
parameters and a fresh null-status resource the chain falls through to the
default and the machine enters `Start`. -/
theorem c1_init_decision_amended (vr : Bool) (ctx : Context) :
    (isLoggedInAndSingleSession ctx none = true →
      initDecision vr ctx =
        ⟨InitTarget.Stay,
          Effect.logMessage "Already logged in" ::
            navigateExternal ctx (postSignUpRedirectPath ctx)⟩)
    ∧ (isLoggedInAndSingleSession ctx none = false →
      needsCallback ctx = true →
      initDecision vr ctx = ⟨InitTarget.Callback, []⟩)
    ∧ (isLoggedInAndSingleSession ctx none = false →
      needsCallback ctx = false → hasTicket ctx = true →
      initDecision vr ctx = ⟨InitTarget.Start, navigateInternal vr ctx "/" true⟩)
    ∧ (isLoggedInAndSingleSession ctx none = false →
      needsCallback ctx = false → hasTicket ctx = false →
      needsVerification ctx none = true →
      initDecision vr ctx =
        ⟨InitTarget.Verification, navigateInternal vr ctx "/verify" true⟩)
    ∧ (isLoggedInAndSingleSession ctx none = false →
      needsCallback ctx = false → hasTicket ctx = false →
      needsVerification ctx none = false →
      (needsContinue ctx none || hasClerkTransfer ctx) = true →
      initDecision vr ctx =
        ⟨InitTarget.Continue, navigateInternal vr ctx "/continue" true⟩)
    ∧ (isLoggedInAndSingleSession ctx none = false →
      needsCallback ctx = false → hasTicket ctx = false →
      needsVerification ctx none = false →
      (needsContinue ctx none || hasClerkTransfer ctx) = false →
      isRestrictedWithoutTicket ctx = true →
      initDecision vr ctx = ⟨InitTarget.Restricted, []⟩)
    ∧ (isLoggedInAndSingleSession ctx none = false →
      needsCallback ctx = false → hasTicket ctx = false →
      needsVerification ctx none = false →
      (needsContinue ctx none || hasClerkTransfer ctx) = false →
      isRestrictedWithoutTicket ctx = false →
      initDecision vr ctx = ⟨InitTarget.Start, navigateInternal vr ctx "/" true⟩)
    ∧ (initDecision vr baseCtx).target = InitTarget.Start := by
  refine ⟨?_, ?_, ?_, ?_, ?_, ?_, ?_, rfl⟩
  · intro h1
    simp [initDecision, h1]
  · intro h1 h2
    simp [initDecision, h1, h2]
  · intro h1 h2 h3
    simp [initDecision, h1, h2, h3]
  · intro h1 h2 h3 h4
    simp [initDecision, h1, h2, h3, h4]
  · intro h1 h2 h3 h4 h5
    simp [initDecision, h1, h2, h3, h4, h5]
  · intro h1 h2 h3 h4 h5 h6
    simp [initDecision, h1, h2, h3, h4, h5, h6]
  · intro h1 h2 h3 h4 h5 h6
    simp [initDecision, h1, h2, h3, h4, h5, h6]

/-- Witness for the amended C1: at `ctxC1` every guard of the chain is false
and the default branch fires. -/
theorem c1_init_decision_amended_witness :
    initDecision false ctxC1 = ⟨InitTarget.Start, navigateInternal false ctxC1 "/" true⟩ :=
  (c1_init_decision_amended false ctxC1).2.2.2.2.2.2.1 rfl rfl rfl rfl rfl rfl

/-- Claim C2: `Verification.Init` dispatches into exactly one of the three
strategy sub-flows in the fixed priority phone code, then email link, then
email code, choosing the first strategy whose field is unverified in the
effective resource (and, for the email strategies, whose strategy is enabled
in account settings); in particular, with both `phone_number` and
`email_address` unverified, phone-code verification is chosen and never an
email strategy. -/
theorem c2_verification_dispatch_priority (ctx : Context)
    (evtRes : Option SignUpResource) (r : SignUpResource)
    (h : effectiveVerifResource ctx evtRes = some r) :
    (r.unverifiedFields.contains "phone_number" = true →
      verificationInitDispatch ctx evtRes = some (some VerifTarget.PhoneCode))
    ∧ (r.unverifiedFields.contains "phone_number" = false →
      r.unverifiedFields.contains "email_address" = true →
      isStrategyEnabled ctx "email_address" "email_link" = some true →
      verificationInitDispatch ctx evtRes = some (some VerifTarget.EmailLink))
    ∧ (r.unverifiedFields.contains "phone_number" = false →
      r.unverifiedFields.contains "email_address" = true →
      isStrategyEnabled ctx "email_address" "email_link" = some false →
      isStrategyEnabled ctx "email_address" "email_code" = some true →
      verificationInitDispatch ctx evtRes = some (some VerifTarget.EmailCode))
    ∧ (r.unverifiedFields.contains "phone_number" = false →
      r.unverifiedFields.contains "email_address" = false →
      verificationInitDispatch ctx evtRes = some none)
    ∧ (r.unverifiedFields.contains "phone_number" = true →
      r.unverifiedFields.contains "email_address" = true →
      verificationInitDispatch ctx evtRes = some (some VerifTarget.PhoneCode)
        ∧ VerifTarget.PhoneCode ≠ VerifTarget.EmailLink
        ∧ VerifTarget.PhoneCode ≠ VerifTarget.EmailCode) := by
  have hf : ∀ f : String,
      isFieldUnverified ctx evtRes f = some (r.unverifiedFields.contains f) := by
    intro f
    simp [isFieldUnverified, h]
  refine ⟨?_, ?_, ?_, ?_, ?_⟩
  · intro hp
    have hpm : "phone_number" ∈ r.unverifiedFields := by simpa using hp
    simp [verificationInitDispatch, shouldVerifyPhoneCode, hf, hpm]
  · intro hp he hl
    have hpm : "phone_number" ∉ r.unverifiedFields := by simpa using hp
    have hem : "email_address" ∈ r.unverifiedFields := by simpa using he
    simp [verificationInitDispatch, shouldVerifyPhoneCode, shouldVerifyEmailLink,
      hf, hpm, hem, hl]
  · intro hp he hl hc
    have hpm : "phone_number" ∉ r.unverifiedFields := by simpa using hp
    have hem : "email_address" ∈ r.unverifiedFields := by simpa using he
    simp [verificationInitDispatch, shouldVerifyPhoneCode, shouldVerifyEmailLink,
      shouldVerifyEmailCode, hf, hpm, hem, hl, hc]
  · intro hp he
    have hpm : "phone_number" ∉ r.unverifiedFields := by simpa using hp
    have hem : "email_address" ∉ r.unverifiedFields := by simpa using he
    simp [verificationInitDispatch, shouldVerifyPhoneCode, shouldVerifyEmailLink,
      shouldVerifyEmailCode, hf, hpm, hem]
  · intro hp he
    have hpm : "phone_number" ∈ r.unverifiedFields := by simpa using hp
    refine ⟨?_, by decide, by decide⟩
    simp [verificationInitDispatch, shouldVerifyPhoneCode, hf, hpm]

/-- A resource with both the phone number and the email address among its
unverified fields. -/
def rC2 : SignUpResource :=
  { emptySignUp with unverifiedFields := ["phone_number", "email_address"] }

/-- An environment enabling the code and link strategies for the email
attribute and the code strategy for the phone attribute. -/
def envC2 : Environment :=
  ⟨⟨some [("email_address", ⟨["email_code", "email_link"]⟩),
      ("phone_number", ⟨["phone_code"]⟩)], "public"⟩, false, "/sign-up-url"⟩

/-- Context holding `rC2` with strategies enabled. -/
def ctxC2 : Context :=
  { baseCtx with
    resource := some rC2,
    clerk := { baseClerk with environment := some envC2 } }

/-- Witness for C2: with phone and email both unverified (strategies
enabled), the dispatch picks the phone-code sub-flow. -/
theorem c2_verification_dispatch_priority_witness :
    verificationInitDispatch ctxC2 none = some (some VerifTarget.PhoneCode) :=
  (c2_verification_dispatch_priority ctxC2 none rC2 rfl).1 rfl

/-- A resource whose email address is still unverified. -/
def rC3unverified : SignUpResource :=
  { emptySignUp with unverifiedFields := ["email_address"] }

/-- A resource whose email address has become verified (empty unverified
list). -/
def rC3verified : SignUpResource :=
  emptySignUp

/-- An environment enabling both email strategies. -/
def envC3 : Environment :=
  ⟨⟨some [("email_address", ⟨["email_code", "email_link"]⟩)], "public"⟩, false,
    "/sign-up-url"⟩

/-- Context in a verification sub-flow with the email address unverified and
both email strategies enabled. -/
def ctxC3 : Context :=
  { baseCtx with
    resource := some rC3unverified,
    clerk := { baseClerk with environment := some envC3 } }

/-- Counterexample to claim C3 as stated, in two parts.  (a) Email link: even
though the field is still unverified (the email-link guard holds), a
successful prepare moves to `Attempting`, not to `Pending`, and raises
nothing.  (b) Email code: the prepare result reports the field verified, yet
the machine goes to `Pending` without raising `NEXT`, because the `onDone`
guard consults the pre-update context resource rather than the returned
one. -/
theorem c3_counterexample :
    (shouldVerifyEmailLink ctxC3 none = some true
      ∧ emailLinkPrepareOnDone ctxC3 rC3unverified =
          ⟨setResource ctxC3 rC3unverified, [], some EmailLinkState.Attempting⟩
      ∧ EmailLinkState.Attempting ≠ EmailLinkState.Pending)
    ∧ (rC3verified.unverifiedFields.contains "email_address" = false
      ∧ emailCodePrepareOnDone ctxC3 rC3verified =
          some ⟨setResource ctxC3 rC3verified, [], some CodeVerifState.Pending⟩) :=
  ⟨⟨rfl, rfl, by decide⟩, rfl, rfl⟩

/-- Claim C3 (amended): for phone code and email code, a successful prepare
stores the returned resource and goes to `Pending` when the sub-flow guard
(field unverified on the pre-update context resource and, for email code,
strategy enabled) still holds, and otherwise stores the resource and raises
`NEXT` with it, skipping `Pending`; the guard consults the context resource
from before the result is stored, not the returned resource.  For email
link, a successful prepare always stores the resource and moves to
`Attempting` (never `Pending`, never raising `NEXT`).  On failure all three
surface the error to the form and go to `Pending` with the context (and its
resource) unchanged. -/
theorem c3_prepare_verification_amended (ctx : Context) (output : SignUpResource)
    (err : ClerkElementsError) (r : SignUpResource) (h : ctx.resource = some r) :
    (r.unverifiedFields.contains "phone_number" = true →
      phoneCodePrepareOnDone ctx output =
        some ⟨setResource ctx output, [], some CodeVerifState.Pending⟩)
    ∧ (r.unverifiedFields.contains "phone_number" = false →
      phoneCodePrepareOnDone ctx output =
        some ⟨setResource ctx output, [Effect.raiseNext (some output)], none⟩)
    ∧ (r.unverifiedFields.contains "email_address" = true →
      isStrategyEnabled ctx "email_address" "email_code" = some true →
      emailCodePrepareOnDone ctx output =
        some ⟨setResource ctx output, [], some CodeVerifState.Pending⟩)
    ∧ (r.unverifiedFields.contains "email_address" = true →
      isStrategyEnabled ctx "email_address" "email_code" = some false →
      emailCodePrepareOnDone ctx output =
        some ⟨setResource ctx output, [Effect.raiseNext (some output)], none⟩)
    ∧ (r.unverifiedFields.contains "email_address" = false →
      emailCodePrepareOnDone ctx output =
        some ⟨setResource ctx output, [Effect.raiseNext (some output)], none⟩)
    ∧ emailLinkPrepareOnDone ctx output =
        ⟨setResource ctx output, [], some EmailLinkState.Attempting⟩
    ∧ verificationPrepareOnError ctx err =
        (ctx, [Effect.form (FormCommand.errorsSet err)])
    ∧ (verificationPrepareOnError ctx err).1.resource = ctx.resource := by
  have hf : ∀ f : String,
      isFieldUnverified ctx none f = some (r.unverifiedFields.contains f) := by
    intro f
    simp [isFieldUnverified, effectiveVerifResource, h]
  refine ⟨?_, ?_, ?_, ?_, ?_, rfl, rfl, rfl⟩
  · intro hp
    have hpm : "phone_number" ∈ r.unverifiedFields := by simpa using hp
    simp [phoneCodePrepareOnDone, shouldVerifyPhoneCode, hf, hpm]
  · intro hp
    have hpm : "phone_number" ∉ r.unverifiedFields := by simpa using hp
    simp [phoneCodePrepareOnDone, shouldVerifyPhoneCode, hf, hpm]
  · intro he hc
    have hem : "email_address" ∈ r.unverifiedFields := by simpa using he
    simp [emailCodePrepareOnDone, shouldVerifyEmailCode, hf, hem, hc]
  · intro he hc
    have hem : "email_address" ∈ r.unverifiedFields := by simpa using he
    simp [emailCodePrepareOnDone, shouldVerifyEmailCode, hf, hem, hc]
  · intro he
    have hem : "email_address" ∉ r.unverifiedFields := by simpa using he
    simp [emailCodePrepareOnDone, shouldVerifyEmailCode, hf, hem]

/-- Witness for the amended C3: a successful email-code prepare with the
field still unverified on the context resource goes to `Pending`. -/
theorem c3_prepare_verification_amended_witness :
    emailCodePrepareOnDone ctxC3 rC3unverified =
      some ⟨setResource ctxC3 rC3unverified, [], some CodeVerifState.Pending⟩ :=
  (c3_prepare_verification_amended ctxC3 rC3unverified
    (ClerkElementsError.runtimeError "network") rC3unverified rfl).2.2.1 rfl rfl
